import Mathlib

/-!
Verification development for the voltage-demo-wallet repository: a shallow
embedding of the wallet's view-model logic (millisatoshi conversion,
transaction reconciliation, filtering and pagination, the send-payment
response processing, the receive-invoice flow, and the event bus), with
theorems settling the behavioural claims about it.

Conventions of the embedding:
* JavaScript numbers holding integer millisatoshi / timestamp values are
  modelled as `ℤ` (or `ℕ` where the source guarantees non-negativity);
  fractional results of JavaScript `/` are modelled as exact `ℚ` values.
* An optional (possibly `undefined`) field is an `Option`; JavaScript
  truthiness of an optional string is `truthyStr`.
* Platform primitives the code calls (JSON.parse, Date arithmetic, the
  remote node client, JSON.stringify) are passed in as explicit arguments,
  since they are not code of this repository.
* React `setX` state updates become explicit record updates on a state
  value returned by the modelled handler.
-/

namespace VoltageDemoWallet

/-! ### JavaScript string primitives used by the components -/

/-- Models JavaScript `String.prototype.split` with a one-character
separator, acting on the character list: `""` splits to `[""]`, a trailing
separator yields a trailing empty piece, exactly as in JS. -/
def splitChar (sep : Char) : List Char → List (List Char)
  | [] => [[]]
  | c :: rest =>
    let r := splitChar sep rest
    if c = sep then [] :: r
    else
      match r with
      | [] => [[c]]
      | h :: t => (c :: h) :: t

/-- Models `s.split('\n')` from `processPaymentResponse`. -/
def jsSplitNewline (s : String) : List String :=
  (splitChar '\n' s.data).map (fun cs => String.mk cs)

/-- Removes leading and trailing whitespace from a character list. -/
def trimChars (cs : List Char) : List Char :=
  ((cs.dropWhile Char.isWhitespace).reverse.dropWhile Char.isWhitespace).reverse

/-- Models JavaScript `String.prototype.trim`. -/
def jsTrim (s : String) : String := String.mk (trimChars s.data)

/-- JavaScript truthiness of an optional string field: `undefined` and the
empty string are falsy, every other string is truthy. -/
def truthyStr : Option String → Bool
  | some s => s != ""
  | none => false

/-! ### Millisatoshi conversion (TransactionHistory component)

Source: `const mSatsToSats = (mSats) => Number(mSats) / 1000;`
JavaScript `/` is numeric division, modelled as exact division in `ℚ`;
the argument is the integer millisatoshi value carried by the field. -/

/-- Convert msats to sats, exactly as the source's `Number(mSats) / 1000`. -/
def mSatsToSats (mSats : ℤ) : ℚ := (mSats : ℚ) / 1000

/-! ### Raw node responses and the transaction view model -/

/-- A raw payment from `listPayments`, restricted to the fields
`loadTransactions` reads. `htlcs` keeps each HTLC's `status`; numeric
string fields carry their integer values. -/
structure RawPayment where
  payment_hash : String
  value_msat : ℤ
  fee_msat : ℤ
  creation_date : ℤ
  payment_request : Option String
  path : List String
  htlcs : List String
  status : String
  deriving DecidableEq

/-- A raw invoice from `listInvoices`, restricted to the fields
`processInvoices` reads; absent (`undefined`) fields are `none`. -/
structure RawInvoice where
  r_hash : String
  creation_date : Option ℤ
  settle_date : Option ℤ
  state : Option String
  value_msat : Option ℤ
  value : Option ℤ
  expiry : Option ℤ
  memo : Option String
  payment_request : String
  deriving DecidableEq

/-- The transaction view model built by `loadTransactions`. Fields a branch
never sets (`fee`, `isExpired`, `expiryDate`, `htlcState`, `destination`,
`displayState`) are `Option`s; `date` is in milliseconds since epoch;
`rawPayment` / `rawInvoice` model the `rawData` field. -/
structure Transaction where
  id : String
  type : String
  amount : ℚ
  fee : Option ℚ
  date : ℤ
  description : String
  status : String
  paymentRequest : String
  destination : Option String
  isExpired : Option Bool
  expiryDate : Option ℤ
  displayState : Option String
  htlcState : Option String
  rawPayment : Option RawPayment
  rawInvoice : Option RawInvoice
  deriving DecidableEq

/-- Maps one raw payment to a `sent` transaction, as in the
`paymentsResponse.payments.map` callback of `loadTransactions`.
`decodeDesc` stands for the remote `decodePaymentRequest` call. -/
def processPayment (decodeDesc : String → String) (payment : RawPayment) : Transaction :=
  let description :=
    if truthyStr payment.payment_request then decodeDesc (payment.payment_request.getD "")
    else if payment.path.length > 0 then "Payment to " ++ (payment.path.getLast?.getD "")
    else "Lightning payment"
  let htlcState :=
    if payment.htlcs.length > 0 then payment.htlcs.getLast?.getD "" else ""
  { id := payment.payment_hash
    type := "sent"
    amount := mSatsToSats payment.value_msat
    fee := some (mSatsToSats payment.fee_msat)
    date := payment.creation_date * 1000
    description := description
    status := payment.status
    paymentRequest := payment.payment_request.getD ""
    destination := some (if payment.path.length > 0 then payment.path.getLast?.getD "" else "")
    isExpired := none
    expiryDate := none
    displayState := some payment.status
    htlcState := some htlcState
    rawPayment := some payment
    rawInvoice := none }

/-- Maps one raw invoice to a `received` transaction, as in the
`processInvoices` helper of `loadTransactions`; `currentTime` is the
`now` argument in seconds. -/
def processInvoice (invoice : RawInvoice) (currentTime : ℤ) : Transaction :=
  let creationDate := invoice.creation_date.getD 0
  let date :=
    match invoice.state, invoice.settle_date with
    | some "SETTLED", some settleDate => settleDate * 1000
    | _, _ => creationDate * 1000
  let amount : ℚ :=
    if invoice.state = some "SETTLED" then
      match invoice.value_msat with
      | some v => mSatsToSats v
      | none =>
        match invoice.value with
        | some v => (v : ℚ)
        | none => 0
    else
      match invoice.value_msat with
      | some v => mSatsToSats v
      | none =>
        match invoice.value with
        | some v => (v : ℚ)
        | none => 0
  let status := invoice.state.getD "UNKNOWN"
  let expirySeconds := invoice.expiry.getD 3600
  let expiryTimestamp := creationDate + expirySeconds
  let isExpired := decide (status = "OPEN") && decide (currentTime > expiryTimestamp)
  { id := invoice.r_hash
    type := "received"
    amount := amount
    fee := none
    date := date
    description := if truthyStr invoice.memo then invoice.memo.getD "" else "Lightning invoice"
    status := status
    paymentRequest := invoice.payment_request
    destination := none
    isExpired := some isExpired
    expiryDate := some (expiryTimestamp * 1000)
    displayState := invoice.state
    htlcState := none
    rawPayment := none
    rawInvoice := some invoice }

/-- The `processInvoices` helper: maps every combined invoice. -/
def processInvoices (invoices : List RawInvoice) (currentTime : ℤ) : List Transaction :=
  invoices.map (fun invoice => processInvoice invoice currentTime)

/-- The `sentPayments` list of `loadTransactions`: empty when the payments
response or its `payments` field is missing. -/
def sentPaymentsOf (decodeDesc : String → String)
    (paymentsResponse : Option (List RawPayment)) : List Transaction :=
  match paymentsResponse with
  | some payments => payments.map (processPayment decodeDesc)
  | none => []

/-- The `combinedInvoices` list: settled response then pending response,
each defaulting to `[]` when its `invoices` field is missing. -/
def combinedInvoicesOf (settledInvoices pendingInvoices : Option (List RawInvoice)) :
    List RawInvoice :=
  settledInvoices.getD [] ++ pendingInvoices.getD []

/-- The `receivedPayments` list of `loadTransactions`: `processInvoices`
over the combined invoices when that list is non-empty. -/
def receivedPaymentsOf (settledInvoices pendingInvoices : Option (List RawInvoice))
    (now : ℤ) : List Transaction :=
  let combinedInvoices := combinedInvoicesOf settledInvoices pendingInvoices
  if combinedInvoices.length > 0 then processInvoices combinedInvoices now else []

/-- The comparator `(a, b) => b.date.getTime() - a.date.getTime()`:
`a` may precede `b` exactly when `b.date ≤ a.date` (descending order). -/
def txDateDescending (a b : Transaction) : Bool := decide (b.date ≤ a.date)

/-- `loadTransactions`: combine sent payments and received invoices and
sort by date descending (`Array.prototype.sort` with the date comparator,
modelled by a stable merge sort under the comparator's order). -/
def loadTransactions (decodeDesc : String → String)
    (paymentsResponse : Option (List RawPayment))
    (settledInvoices pendingInvoices : Option (List RawInvoice)) (now : ℤ) :
    List Transaction :=
  (sentPaymentsOf decodeDesc paymentsResponse ++
    receivedPaymentsOf settledInvoices pendingInvoices now).mergeSort txDateDescending

/-! ### Filters and pagination (TransactionHistory component) -/

/-- The component's filter state. -/
structure TransactionFilters where
  type : List String
  status : List String
  timeRange : String
  deriving DecidableEq

/-- The type-filter block of `applyFilters`: skipped when the selected set
contains `all`, otherwise keeps entries whose `type` is selected. -/
def typeFilterStage (typeFilters : List String) (txList : List Transaction) :
    List Transaction :=
  if !(typeFilters.contains "all") then
    txList.filter (fun tx => typeFilters.contains tx.type)
  else txList

/-- The status-filter block of `applyFilters`. -/
def statusFilterStage (statusFilters : List String) (txList : List Transaction) :
    List Transaction :=
  if !(statusFilters.contains "all") then
    txList.filter (fun tx => statusFilters.contains tx.status)
  else txList

/-- The `startDate` computed by the `switch` in `applyFilters`; the Date
arithmetic (`setHours`, `setDate`, `setMonth`) happens on the platform, so
the three possible start instants come in as arguments; the `switch`
default leaves `startDate = new Date()`, i.e. `now`. All in ms. -/
def timeRangeStart (timeRange : String) (now startOfToday weekAgo monthAgo : ℤ) : ℤ :=
  match timeRange with
  | "today" => startOfToday
  | "week" => weekAgo
  | "month" => monthAgo
  | _ => now

/-- The time-range block of `applyFilters`: skipped for `all`, otherwise
keeps entries with `tx.date >= startDate`. -/
def timeFilterStage (timeRange : String) (now startOfToday weekAgo monthAgo : ℤ)
    (txList : List Transaction) : List Transaction :=
  if timeRange != "all" then
    txList.filter (fun tx => decide (timeRangeStart timeRange now startOfToday weekAgo monthAgo ≤ tx.date))
  else txList

/-- `Math.ceil(a / b)` on non-negative integers, as the exact ceiling of
the rational quotient (faithful for `b > 0`; the source only ever divides
by the positive `pageSize`). -/
def jsMathCeilDiv (a b : ℕ) : ℕ := Int.toNat ⌈(a : ℚ) / (b : ℚ)⌉

/-- The state written by one run of `applyFilters`:
`setFilteredTransactions`, `setTotalPages`, `setCurrentPage(1)`. -/
structure FilterOutcome where
  filteredTransactions : List Transaction
  totalPages : ℕ
  currentPage : ℕ
  deriving DecidableEq

/-- `applyFilters`: the three filter blocks in source order, then the
pagination bookkeeping (`calculatedTotalPages > 0 ? ... : 1`) and the
reset of the current page to 1. -/
def applyFilters (filters : TransactionFilters) (pageSize : ℕ)
    (now startOfToday weekAgo monthAgo : ℤ) (txList : List Transaction) :
    FilterOutcome :=
  let filtered := typeFilterStage filters.type txList
  let filtered := statusFilterStage filters.status filtered
  let filtered := timeFilterStage filters.timeRange now startOfToday weekAgo monthAgo filtered
  let totalItems := filtered.length
  let calculatedTotalPages := jsMathCeilDiv totalItems pageSize
  { filteredTransactions := filtered
    totalPages := if calculatedTotalPages > 0 then calculatedTotalPages else 1
    currentPage := 1 }

/-- `getPaginatedTransactions`: `filteredTransactions.slice(startIndex,
endIndex)` with `startIndex = (currentPage - 1) * pageSize` and
`endIndex = startIndex + pageSize`. -/
def getPaginatedTransactions (currentPage pageSize : ℕ)
    (filteredTransactions : List Transaction) : List Transaction :=
  let startIndex := (currentPage - 1) * pageSize
  let endIndex := startIndex + pageSize
  (filteredTransactions.drop startIndex).take (endIndex - startIndex)

/-- `handlePageChange`: rejects a requested page below 1 or above
`totalPages`, otherwise moves to it. The requested page is an integer so
that out-of-range values below 1 are representable. -/
def handlePageChange (currentPage totalPages : ℕ) (page : ℤ) : ℕ :=
  if page < 1 ∨ (totalPages : ℤ) < page then currentPage
  else page.toNat

/-! ### LightningSend component -/

/-- The fields of a streamed payment record that `handlePaymentUpdate`
reads (`result.status`, `result.failure_reason`). -/
structure PaymentData where
  status : String
  failure_reason : Option String
  deriving DecidableEq

/-- The `{ result: ... }` wrapper; `result` is optional because the code
guards `if (!result) return`. -/
structure PaymentResult where
  result : Option PaymentData
  deriving DecidableEq

/-- The outcome of a `JSON.parse` relevant to `processPaymentResponse`:
a string, an object with its optional `result` field, or any other value
(`null`, number, boolean, array). A parse that throws is `none` at the
call site. -/
inductive JsValue where
  | jstr (s : String)
  | jobj (result : Option PaymentData)
  | jother
  deriving DecidableEq

/-- Reading `.result` off a parsed value: only an object can have it. -/
def jsResultField : JsValue → Option PaymentData
  | .jobj r => r
  | _ => none

/-- The LightningSend component state touched by the handlers. -/
structure SendState where
  paymentRequest : String
  paymentResult : Option PaymentResult
  loading : Bool
  error : Option String
  rawResponse : String
  deriving DecidableEq

/-- `handlePaymentUpdate`: store the result, then branch on its status. -/
def handlePaymentUpdate (st : SendState) (paymentData : PaymentResult) : SendState :=
  let st1 := { st with paymentResult := some paymentData }
  match paymentData.result with
  | none => st1
  | some result =>
    match result.status with
    | "SUCCEEDED" => { st1 with loading := false, error := none }
    | "FAILED" =>
      { st1 with loading := false,
                 error := some ("Payment failed: " ++
                   (if truthyStr result.failure_reason then result.failure_reason.getD ""
                    else "Unknown error")) }
    | "IN_FLIGHT" => st1
    | other => { st1 with loading := false, error := some ("Unknown payment status: " ++ other) }

/-- `processPaymentResponse`: parse the outer payload (`parseJson` models
`JSON.parse`, `none` when it throws); an object with a `result` is handled
directly; a string is split into newline-delimited pieces, empty pieces
are dropped, and only the last piece is parsed and handled; every failure
sets an error string and stops the loading indicator. -/
def processPaymentResponse (parseJson : String → Option JsValue) (st : SendState)
    (rawResponse : String) : SendState :=
  match parseJson rawResponse with
  | none => { st with error := some "Failed to process payment response", loading := false }
  | some responseData =>
    match responseData with
    | .jobj (some resultData) => handlePaymentUpdate st { result := some resultData }
    | .jstr s =>
      match ((jsSplitNewline s).filter (fun t => jsTrim t != "")).getLast? with
      | none => { st with error := some "No valid payment response found", loading := false }
      | some lastJsonString =>
        match parseJson lastJsonString with
        | none => { st with error := some "Unable to parse payment response", loading := false }
        | some paymentData =>
          match jsResultField paymentData with
          | none => { st with error := some "Invalid payment response format", loading := false }
          | some resultData => handlePaymentUpdate st { result := some resultData }
    | .jobj none => { st with error := some "Unrecognized payment response format", loading := false }
    | .jother => { st with error := some "Unrecognized payment response format", loading := false }

/-- `sendPayment`: reject a blank invoice, otherwise reset the state and
either store `JSON.stringify(await lnd.sendPaymentV2(...))` (the `ok`
case) or catch the node-client failure and report the generic error. -/
def sendPayment (st : SendState) (sendResult : Except Unit String) : SendState :=
  if jsTrim st.paymentRequest = "" then
    { st with error := some "Please enter a valid lightning invoice" }
  else
    let st1 := { st with loading := true, error := none, paymentResult := none, rawResponse := "" }
    match sendResult with
    | .ok stringifiedResult => { st1 with rawResponse := stringifiedResult }
    | .error _ =>
      { st1 with
          error := some "Failed to send payment. Please check your invoice and node connection.",
          loading := false }

/-! ### LightningReceive component -/

/-- The component's local `Invoice` cache (every field a string as in the
source interface; `memo` is always set by `createInvoice`). -/
structure LocalInvoice where
  payment_request : String
  payment_hash : String
  value_msat : String
  timestamp : String
  expiry : String
  memo : String
  settled : Bool
  deriving DecidableEq

/-- The fields of the node's `addInvoice` response that `createInvoice`
reads. -/
structure AddInvoiceResult where
  payment_request : String
  r_hash : String
  deriving DecidableEq

/-- `createInvoice`: build `formattedInvoice` from the node response (the
amount entered in sats becomes `amount * 1000 + ''` msats, expiry is the
literal `'3600'`, `settled` starts `false`) and emit `invoice:created`.
Returns the stored invoice and the emitted event names. -/
def createInvoice (amount : ℕ) (memo : String) (nowSeconds : ℕ)
    (newInvoice : AddInvoiceResult) : LocalInvoice × List String :=
  let formattedInvoice : LocalInvoice :=
    { payment_request := newInvoice.payment_request
      payment_hash := newInvoice.r_hash
      value_msat := toString (amount * 1000)
      timestamp := toString nowSeconds
      expiry := "3600"
      memo := if memo = "" then "Lightning Payment" else memo
      settled := false }
  (formattedInvoice, ["invoice:created"])

/-- One `checkInvoiceStatus` call on a stored invoice: `lookupSettled` is
the node's `lookupInvoiceV2(...).settled`; the stored invoice is updated
and `transaction:new` is emitted exactly when the invoice was unsettled
before and the lookup says settled now. Returns the new stored invoice
and the emitted event names. -/
def checkInvoiceStatus (invoice : LocalInvoice) (lookupSettled : Bool) :
    LocalInvoice × List String :=
  let wasSettledBefore := invoice.settled
  let isSettledNow := lookupSettled
  let updatedInvoiceState := { invoice with settled := isSettledNow }
  (updatedInvoiceState, if !wasSettledBefore && isSettledNow then ["transaction:new"] else [])

/-- A sequence of `checkInvoiceStatus` calls, threading the stored invoice
through; returns all emitted event names in order. -/
def runChecks (invoice : LocalInvoice) : List Bool → List String
  | [] => []
  | b :: bs =>
    (checkInvoiceStatus invoice b).2 ++ runChecks (checkInvoiceStatus invoice b).1 bs

/-- The node-side monotonicity of settlement: once a lookup reports
settled, every later lookup does too (settlement is permanent). -/
def monotoneLookups : List Bool → Bool
  | [] => true
  | [_] => true
  | a :: b :: rest => (!a || b) && monotoneLookups (b :: rest)

/-! ### Event bus (`src/app/utils/eventBus.ts`, shown in `page.tsx`) -/

/-- The fixed event-name enumeration `AppEvent`
(`transaction:new`, `invoice:created`, `payment:sent`). -/
inductive AppEvent where
  | transactionNew
  | invoiceCreated
  | paymentSent
  deriving DecidableEq

/-- A subscriber callback; a thrown exception is the `error` case. -/
def EventCallback (α : Type) : Type := α → Except String Unit

/-- The bus's `Map<AppEvent, EventCallback[]>`. -/
structure EventBus (α : Type) where
  events : AppEvent → Option (List (EventCallback α))

/-- The freshly constructed bus: an empty map. -/
def emptyEventBus (α : Type) : EventBus α := { events := fun _ => none }

/-- `Map.prototype.set` on the modelled map. -/
def mapSet {β : Type} (m : AppEvent → Option β) (k : AppEvent) (v : β) :
    AppEvent → Option β :=
  fun e => if e = k then some v else m e

/-- `EventBus.on`: create the callback list if missing, then push. -/
def busOn {α : Type} (bus : EventBus α) (event : AppEvent)
    (callback : EventCallback α) : EventBus α :=
  let m := if (bus.events event).isNone then mapSet bus.events event [] else bus.events
  match m event with
  | some callbacks => { events := mapSet m event (callbacks ++ [callback]) }
  | none => { events := m }

/-- What one guarded callback invocation produced: a normal return, or an
exception that the bus caught (and logged). -/
inductive CallbackOutcome where
  | ok
  | caught (message : String)
  deriving DecidableEq

/-- One iteration of the `forEach` body: invoke the callback inside
`try { ... } catch (error) { console.error(...) }`. -/
def invokeCaught {α : Type} (callback : EventCallback α) (args : α) : CallbackOutcome :=
  match callback args with
  | .ok _ => .ok
  | .error message => .caught message

/-- The `callbacks.forEach` loop of `EventBus.emit`: every callback is
invoked in order with the same arguments; an exception in one is caught
and the loop continues. -/
def runCallbacks {α : Type} : List (EventCallback α) → α → List CallbackOutcome
  | [], _ => []
  | callback :: rest, args => invokeCaught callback args :: runCallbacks rest args

/-- `EventBus.emit`: returns immediately when the event has no callback
list, otherwise runs every callback guarded. The result records the
observable invocation outcomes in order. -/
def busEmit {α : Type} (bus : EventBus α) (event : AppEvent) (args : α) :
    List CallbackOutcome :=
  match bus.events event with
  | none => []
  | some callbacks => runCallbacks callbacks args

/-! ### Theorems -/

/-- C1 counterexample: at `value_msat = 1500` the conversion performed by
`mSatsToSats` yields `1.5`, not `floor(1500 / 1000) = 1`, so the claimed
truncating integer division by 1000 does not hold for every millisatoshi
input value. -/
theorem claim_C1_counterexample :
    mSatsToSats 1500 ≠ (⌊((1500 : ℤ) : ℚ) / 1000⌋ : ℚ) := by
  have hfloor : ⌊((1500 : ℤ) : ℚ) / 1000⌋ = 1 := by
    rw [Int.floor_eq_iff]
    norm_num
  rw [hfloor, mSatsToSats]
  norm_num

/-- C1 (amended): `mSatsToSats` performs exact (rational) division of the
millisatoshi value by 1000, with no truncation; consequently the displayed
amount equals `floor(value_msat / 1000)` exactly when the millisatoshi
value is a multiple of 1000, and keeps the sub-satoshi remainder
otherwise. -/
theorem claim_C1_amended (m : ℤ) :
    mSatsToSats m = (m : ℚ) / 1000 ∧
    (mSatsToSats m = (⌊(m : ℚ) / 1000⌋ : ℚ) ↔ (1000 : ℤ) ∣ m) := by
  refine ⟨rfl, ?_⟩
  have hfloor : ⌊(m : ℚ) / 1000⌋ = m / 1000 := by
    simpa using Rat.floor_intCast_div_natCast m 1000
  rw [mSatsToSats, hfloor]
  constructor
  · intro h
    rw [div_eq_iff (by norm_num : (1000 : ℚ) ≠ 0)] at h
    have h3 : m = (m / 1000) * 1000 := by exact_mod_cast h
    exact ⟨m / 1000, by rw [mul_comm]; exact h3⟩
  · rintro ⟨k, rfl⟩
    rw [Int.mul_ediv_cancel_left k (by norm_num : (1000 : ℤ) ≠ 0)]
    push_cast
    field_simp

/-- C4: `processInvoice` marks an invoice expired exactly when its state
is `OPEN` and the current time (seconds) strictly exceeds
`creation_date + expiry`, with `expiry` defaulting to 3600 when absent;
hence an invoice with `creation_date + expiry ≥ now` is never classified
expired, and a non-`OPEN` invoice is never classified expired. -/
theorem claim_C4 (invoice : RawInvoice) (currentTime : ℤ) :
    (processInvoice invoice currentTime).isExpired = some true ↔
      (invoice.state = some "OPEN" ∧
        invoice.creation_date.getD 0 + invoice.expiry.getD 3600 < currentTime) := by
  cases hstate : invoice.state with
  | none => simp [processInvoice, hstate]
  | some s =>
    by_cases hs : s = "OPEN"
    · subst hs
      simp [processInvoice, hstate]
    · simp [processInvoice, hstate, hs]

/-- C6: for every amount `A` (sats) entered in the receive form,
`createInvoice` stores an invoice whose `value_msat` is the decimal string
of `A * 1000`, whose `expiry` is `"3600"`, and whose `settled` flag is
`false`. -/
theorem claim_C6 (amount : ℕ) (memo : String) (nowSeconds : ℕ)
    (newInvoice : AddInvoiceResult) :
    (createInvoice amount memo nowSeconds newInvoice).1.value_msat = toString (amount * 1000) ∧
    (createInvoice amount memo nowSeconds newInvoice).1.expiry = "3600" ∧
    (createInvoice amount memo nowSeconds newInvoice).1.settled = false :=
  ⟨rfl, rfl, rfl⟩

/-- The `forEach` loop of `emit` invokes every callback, each one guarded
by its own try/catch. -/
lemma runCallbacks_eq_map {α : Type} (callbacks : List (EventCallback α)) (args : α) :
    runCallbacks callbacks args = callbacks.map (fun callback => invokeCaught callback args) := by
  induction callbacks with
  | nil => rfl
  | cons cb rest ih => simp [runCallbacks, ih]

/-- C9: `EventBus.emit` on an event with no registered subscribers returns
normally having done nothing, and in general every registered subscriber
is invoked exactly once with the same arguments, each invocation guarded
by its own catch — so one callback's exception never prevents the
remaining callbacks from running. -/
theorem claim_C9 {α : Type} (bus : EventBus α) (event : AppEvent) (args : α) :
    busEmit bus event args =
      ((bus.events event).getD []).map (fun callback => invokeCaught callback args) := by
  unfold busEmit
  cases h : bus.events event with
  | none => rfl
  | some callbacks => simp [runCallbacks_eq_map]

/-- C2: when the outer parse of the raw payment response yields a string
of newline-delimited pieces, `processPaymentResponse` keeps only the last
piece whose trimmed text is non-empty; whenever that last piece parses to
an object whose `result` has status `SUCCEEDED` — in particular for a
stream of an `IN_FLIGHT` line followed by a `SUCCEEDED` line — the
component ends with the payment result set to that `SUCCEEDED` record,
`loading = false` and `error = null`, regardless of the earlier lines. -/
theorem claim_C2 (parseJson : String → Option JsValue) (st : SendState)
    (rawResponse s lastJsonString : String) (pd : PaymentData)
    (houter : parseJson rawResponse = some (.jstr s))
    (hlast : ((jsSplitNewline s).filter (fun t => jsTrim t != "")).getLast? = some lastJsonString)
    (hparse : parseJson lastJsonString = some (.jobj (some pd)))
    (hsucc : pd.status = "SUCCEEDED") :
    processPaymentResponse parseJson st rawResponse =
      { st with paymentResult := some { result := some pd },
                loading := false, error := none } := by
  unfold processPaymentResponse
  rw [houter]
  dsimp only
  rw [hlast]
  dsimp only
  rw [hparse]
  dsimp only [jsResultField]
  unfold handlePaymentUpdate
  dsimp only
  rw [hsucc]
  rfl

/-- The concrete `SUCCEEDED` record of the two-line payment stream
scenario. -/
def sampleSuccessData : PaymentData := { status := "SUCCEEDED", failure_reason := none }

/-- A concrete `JSON.parse` behaviour for the two-line payment stream
scenario: the outer payload parses to a string of two stream lines, the
first line parses to an `IN_FLIGHT` result, the second to a `SUCCEEDED`
result. -/
def sampleStreamParse : String → Option JsValue := fun s =>
  if s = "streamedBody" then some (.jstr "lineInFlight\nlineSucceeded")
  else if s = "lineInFlight" then some (.jobj (some { status := "IN_FLIGHT", failure_reason := none }))
  else if s = "lineSucceeded" then some (.jobj (some sampleSuccessData))
  else none

/-- A concrete LightningSend state mid-payment. -/
def sampleSendState : SendState :=
  { paymentRequest := "lnbc1invoice"
    paymentResult := none
    loading := true
    error := none
    rawResponse := "streamedBody" }

theorem claim_C2_witness :
    processPaymentResponse sampleStreamParse sampleSendState "streamedBody" =
      { sampleSendState with
          paymentResult := some { result := some sampleSuccessData },
          loading := false, error := none } :=
  claim_C2 sampleStreamParse sampleSendState "streamedBody" "lineInFlight\nlineSucceeded"
    "lineSucceeded" sampleSuccessData (by decide) (by decide) (by decide) (by decide)

/-- Settlement never reverses at the node: the tail of a monotone lookup
sequence is monotone. -/
lemma monotoneLookups_tail (b : Bool) (bs : List Bool)
    (h : monotoneLookups (b :: bs) = true) : monotoneLookups bs = true := by
  cases bs with
  | nil => rfl
  | cons c cs =>
    rw [monotoneLookups] at h
    simp only [Bool.and_eq_true] at h
    exact h.2

/-- After a settled lookup, a monotone sequence stays settled. -/
lemma monotoneLookups_head_true (bs : List Bool)
    (h : monotoneLookups (true :: bs) = true) : bs.all (fun x => x) = true := by
  induction bs with
  | nil => rfl
  | cons c cs ih =>
    rw [monotoneLookups] at h
    simp only [Bool.and_eq_true] at h
    obtain ⟨hc, hrest⟩ := h
    have hc2 : c = true := by simpa using hc
    subst hc2
    simp only [List.all_cons, Bool.and_eq_true]
    exact ⟨trivial, ih hrest⟩

/-- Once the stored invoice is settled, checks whose lookups keep
reporting settled emit no event at all. -/
lemma runChecks_settled_of_all_true (invoice : LocalInvoice) (lookups : List Bool)
    (hs : invoice.settled = true) (hall : lookups.all (fun x => x) = true) :
    runChecks invoice lookups = [] := by
  induction lookups generalizing invoice with
  | nil => rfl
  | cons b bs ih =>
    simp only [List.all_cons, Bool.and_eq_true] at hall
    obtain ⟨hb, hbs⟩ := hall
    have hb2 : b = true := by simpa using hb
    subst hb2
    rw [runChecks]
    rw [show (checkInvoiceStatus invoice true).2 = [] from by simp [checkInvoiceStatus, hs]]
    simpa using ih { invoice with settled := true } rfl hbs

/-- Over any monotone lookup sequence, a run of checks emits at most one
event. -/
lemma runChecks_length_le_one (invoice : LocalInvoice) (lookups : List Bool)
    (h : monotoneLookups lookups = true) :
    (runChecks invoice lookups).length ≤ 1 := by
  induction lookups generalizing invoice with
  | nil => simp [runChecks]
  | cons b bs ih =>
    cases b with
    | false =>
      have hbs := monotoneLookups_tail false bs h
      rw [runChecks]
      rw [show (checkInvoiceStatus invoice false).2 = [] from by simp [checkInvoiceStatus]]
      simpa using ih (checkInvoiceStatus invoice false).1 hbs
    | true =>
      have hall := monotoneLookups_head_true bs h
      have hrest : runChecks (checkInvoiceStatus invoice true).1 bs = [] := by
        apply runChecks_settled_of_all_true _ _ _ hall
        simp [checkInvoiceStatus]
      rw [runChecks, hrest]
      cases hws : invoice.settled with
      | true => simp [checkInvoiceStatus, hws]
      | false => simp [checkInvoiceStatus, hws]

/-- C3: one `checkInvoiceStatus` call emits `transaction:new` exactly when
the stored invoice's `settled` flag was `false` before the check and the
node's lookup returns settled `true`; and over any sequence of checks
whose lookups are monotone (settlement at the node is permanent), the
settlement notification fires at most once for the invoice. -/
theorem claim_C3 (invoice : LocalInvoice) (lookupSettled : Bool) (lookups : List Bool)
    (hmono : monotoneLookups lookups = true) :
    ((checkInvoiceStatus invoice lookupSettled).2 = ["transaction:new"] ↔
      (invoice.settled = false ∧ lookupSettled = true)) ∧
    (runChecks invoice lookups).length ≤ 1 := by
  constructor
  · cases hws : invoice.settled <;> cases lookupSettled <;>
      simp [checkInvoiceStatus, hws]
  · exact runChecks_length_le_one invoice lookups hmono

/-- The concrete freshly created invoice of the receive scenario
(amount 10, memo `test`). -/
def sampleLocalInvoice : LocalInvoice :=
  { payment_request := "lnbcrt100n1sample"
    payment_hash := "abc123"
    value_msat := "10000"
    timestamp := "1700000000"
    expiry := "3600"
    memo := "test"
    settled := false }

theorem claim_C3_witness :
    (((checkInvoiceStatus sampleLocalInvoice true).2 = ["transaction:new"] ↔
      (sampleLocalInvoice.settled = false ∧ true = true)) ∧
      (runChecks sampleLocalInvoice [false, true, true]).length ≤ 1) :=
  claim_C3 sampleLocalInvoice true [false, true, true] (by decide)

/-- C8: every malformed payment-response shape is reported as a
user-facing error string with `loading = false`, and no exception escapes
(the modelled handlers are total functions): an inner parse failure of the
last stream line yields `Unable to parse payment response`; a last line
without a `result` field yields `Invalid payment response format`; and a
node-client send failure is caught and converted to the single generic
send error string. -/
theorem claim_C8
    (parseA : String → Option JsValue) (stA : SendState) (rawA sA lastA : String)
    (parseB : String → Option JsValue) (stB : SendState) (rawB sB lastB : String)
    (vB : JsValue) (stC : SendState)
    (hA1 : parseA rawA = some (.jstr sA))
    (hA2 : ((jsSplitNewline sA).filter (fun t => jsTrim t != "")).getLast? = some lastA)
    (hA3 : parseA lastA = none)
    (hB1 : parseB rawB = some (.jstr sB))
    (hB2 : ((jsSplitNewline sB).filter (fun t => jsTrim t != "")).getLast? = some lastB)
    (hB3 : parseB lastB = some vB)
    (hB4 : jsResultField vB = none)
    (hC : jsTrim stC.paymentRequest ≠ "") :
    processPaymentResponse parseA stA rawA =
      { stA with error := some "Unable to parse payment response", loading := false } ∧
    processPaymentResponse parseB stB rawB =
      { stB with error := some "Invalid payment response format", loading := false } ∧
    sendPayment stC (.error ()) =
      { stC with loading := false, error := some "Failed to send payment. Please check your invoice and node connection.", paymentResult := none, rawResponse := "" } := by
  refine ⟨?_, ?_, ?_⟩
  · unfold processPaymentResponse
    rw [hA1]
    dsimp only
    rw [hA2]
    dsimp only
    rw [hA3]
  · unfold processPaymentResponse
    rw [hB1]
    dsimp only
    rw [hB2]
    dsimp only
    rw [hB3]
    dsimp only
    rw [hB4]
  · unfold sendPayment
    rw [if_neg hC]

/-- A concrete parse behaviour whose single stream line fails the inner
parse. -/
def sampleBrokenParse : String → Option JsValue := fun s =>
  if s = "brokenStream" then some (.jstr "garbageLine") else none

/-- A concrete parse behaviour whose single stream line parses to a value
without a `result` field. -/
def sampleNoResultParse : String → Option JsValue := fun s =>
  if s = "noResultStream" then some (.jstr "nullLine")
  else if s = "nullLine" then some .jother
  else none

theorem claim_C8_witness :
    (processPaymentResponse sampleBrokenParse sampleSendState "brokenStream" =
      { sampleSendState with error := some "Unable to parse payment response", loading := false } ∧
    processPaymentResponse sampleNoResultParse sampleSendState "noResultStream" =
      { sampleSendState with error := some "Invalid payment response format", loading := false } ∧
    sendPayment sampleSendState (.error ()) =
      { sampleSendState with loading := false, error := some "Failed to send payment. Please check your invoice and node connection.", paymentResult := none, rawResponse := "" }) :=
  claim_C8 sampleBrokenParse sampleSendState "brokenStream" "garbageLine" "garbageLine"
    sampleNoResultParse sampleSendState "noResultStream" "nullLine" "nullLine"
    .jother sampleSendState
    (by decide) (by decide) (by decide) (by decide) (by decide) (by decide) (by decide)
    (by decide)

/-- Everything surviving the status-filter block came from its input. -/
lemma mem_of_mem_statusFilterStage (statusFilters : List String)
    (txList : List Transaction) (tx : Transaction)
    (h : tx ∈ statusFilterStage statusFilters txList) : tx ∈ txList := by
  unfold statusFilterStage at h
  split at h
  · exact (List.mem_filter.mp h).1
  · exact h

/-- Everything surviving the time-filter block came from its input. -/
lemma mem_of_mem_timeFilterStage (timeRange : String)
    (now startOfToday weekAgo monthAgo : ℤ)
    (txList : List Transaction) (tx : Transaction)
    (h : tx ∈ timeFilterStage timeRange now startOfToday weekAgo monthAgo txList) :
    tx ∈ txList := by
  unfold timeFilterStage at h
  split at h
  · exact (List.mem_filter.mp h).1
  · exact h

/-- C5: with the type filter set to exactly `sent`, every transaction
surviving `applyFilters` has type `sent` (in particular none has type
`received`); and whenever the selected type set contains `all`, the type
filter removes nothing. -/
theorem claim_C5 (statusFilters : List String) (timeRange : String) (pageSize : ℕ)
    (now startOfToday weekAgo monthAgo : ℤ) (txList : List Transaction)
    (tx : Transaction) (typeFilters : List String) (otherList : List Transaction)
    (htx : tx ∈ (applyFilters { type := ["sent"], status := statusFilters, timeRange := timeRange } pageSize now startOfToday weekAgo monthAgo txList).filteredTransactions)
    (hall : typeFilters.contains "all" = true) :
    (tx.type ≠ "received" ∧ tx.type ∈ ["sent"]) ∧
    typeFilterStage typeFilters otherList = otherList := by
  constructor
  · have h1 : tx ∈ typeFilterStage ["sent"] txList := by
      unfold applyFilters at htx
      dsimp only at htx
      exact mem_of_mem_statusFilterStage _ _ _
        (mem_of_mem_timeFilterStage _ _ _ _ _ _ _ htx)
    have h2 : tx ∈ txList.filter (fun t => (["sent"].contains t.type : Bool)) := h1
    have h3 := (List.mem_filter.mp h2).2
    have h4 : tx.type = "sent" := by simpa using h3
    rw [h4]
    exact ⟨by decide, by simp⟩
  · unfold typeFilterStage
    rw [hall]
    rfl

/-- A concrete sent transaction for the filter and pagination witnesses. -/
def sampleSentTx : Transaction :=
  { id := "payhash1"
    type := "sent"
    amount := 21
    fee := some 0
    date := 1700000000000
    description := "coffee"
    status := "SUCCEEDED"
    paymentRequest := "lnbc1"
    destination := some "nodeX"
    isExpired := none
    expiryDate := none
    displayState := some "SUCCEEDED"
    htlcState := some "SUCCEEDED"
    rawPayment := none
    rawInvoice := none }

theorem claim_C5_witness :
    ((sampleSentTx.type ≠ "received" ∧ sampleSentTx.type ∈ ["sent"]) ∧
      typeFilterStage ["all"] [sampleSentTx] = [sampleSentTx]) :=
  claim_C5 ["all"] "all" 10 0 0 0 0 [sampleSentTx] sampleSentTx ["all"] [sampleSentTx]
    (List.Mem.head _) (by decide)

/-- The date comparator's order is transitive. -/
lemma txDateDescending_trans (a b c : Transaction)
    (hab : txDateDescending a b = true) (hbc : txDateDescending b c = true) :
    txDateDescending a c = true := by
  simp only [txDateDescending, decide_eq_true_eq] at hab hbc ⊢
  exact le_trans hbc hab

/-- The date comparator's order is total. -/
lemma txDateDescending_total (a b : Transaction) :
    (txDateDescending a b || txDateDescending b a) = true := by
  simp only [txDateDescending, Bool.or_eq_true, decide_eq_true_eq]
  exact le_total b.date a.date

/-- C7: the reconciled list produced by `loadTransactions` is sorted
descending by date (every earlier entry's date is at least every later
entry's date), and it is a permutation of the mapped sent payments
together with the mapped received invoices. -/
theorem claim_C7 (decodeDesc : String → String)
    (paymentsResponse : Option (List RawPayment))
    (settledInvoices pendingInvoices : Option (List RawInvoice)) (now : ℤ) :
    List.Pairwise (fun a b => b.date ≤ a.date)
      (loadTransactions decodeDesc paymentsResponse settledInvoices pendingInvoices now) ∧
    (loadTransactions decodeDesc paymentsResponse settledInvoices pendingInvoices now).Perm
      (sentPaymentsOf decodeDesc paymentsResponse ++
        receivedPaymentsOf settledInvoices pendingInvoices now) := by
  constructor
  · have h := List.sorted_mergeSort txDateDescending_trans txDateDescending_total
      (sentPaymentsOf decodeDesc paymentsResponse ++
        receivedPaymentsOf settledInvoices pendingInvoices now)
    unfold loadTransactions
    exact List.Pairwise.imp
      (fun hab => by simpa only [txDateDescending, decide_eq_true_eq] using hab) h
  · exact List.mergeSort_perm _ _

/-- C10: `applyFilters` sets `totalPages` to
`max 1 ⌈filtered.length / pageSize⌉` and resets the current page to 1;
`getPaginatedTransactions` returns exactly the slice of the filtered list
starting at `(currentPage - 1) * pageSize` of length at most `pageSize`;
and `handlePageChange` leaves the current page unchanged for every
requested page below 1 or above `totalPages`. -/
theorem claim_C10 (filters : TransactionFilters) (pageSize : ℕ)
    (now startOfToday weekAgo monthAgo : ℤ) (txList : List Transaction)
    (currentPage totalPages : ℕ) (page : ℤ)
    (filteredTransactions : List Transaction)
    (_hps : 0 < pageSize)
    (hpage : page < 1 ∨ (totalPages : ℤ) < page) :
    (applyFilters filters pageSize now startOfToday weekAgo monthAgo txList).totalPages =
      max 1 (Int.toNat ⌈(((applyFilters filters pageSize now startOfToday weekAgo monthAgo txList).filteredTransactions.length : ℕ) : ℚ) / ((pageSize : ℕ) : ℚ)⌉) ∧
    (applyFilters filters pageSize now startOfToday weekAgo monthAgo txList).currentPage = 1 ∧
    (getPaginatedTransactions currentPage pageSize filteredTransactions).length ≤ pageSize ∧
    getPaginatedTransactions currentPage pageSize filteredTransactions =
      (filteredTransactions.drop ((currentPage - 1) * pageSize)).take pageSize ∧
    handlePageChange currentPage totalPages page = currentPage := by
  refine ⟨?_, rfl, ?_, ?_, ?_⟩
  · have hmax : ∀ c : ℕ, (if c > 0 then c else 1) = max 1 c := by
      intro c
      split <;> omega
    unfold applyFilters jsMathCeilDiv
    dsimp only
    exact hmax _
  · simp only [getPaginatedTransactions, Nat.add_sub_cancel_left, List.length_take]
    exact inf_le_left
  · simp only [getPaginatedTransactions, Nat.add_sub_cancel_left]
  · unfold handlePageChange
    rw [if_pos hpage]

/-- A concrete all-pass filter state for the pagination witness. -/
def sampleFilters : TransactionFilters :=
  { type := ["all"], status := ["all"], timeRange := "all" }

theorem claim_C10_witness :
    ((0 : ℤ) < 1 ∨ (((3 : ℕ) : ℤ)) < 0) ∧
    ((applyFilters sampleFilters 10 0 0 0 0 [sampleSentTx]).totalPages =
      max 1 (Int.toNat ⌈(((applyFilters sampleFilters 10 0 0 0 0 [sampleSentTx]).filteredTransactions.length : ℕ) : ℚ) / (((10 : ℕ)) : ℚ)⌉) ∧
    (applyFilters sampleFilters 10 0 0 0 0 [sampleSentTx]).currentPage = 1 ∧
    (getPaginatedTransactions 2 10 [sampleSentTx]).length ≤ 10 ∧
    getPaginatedTransactions 2 10 [sampleSentTx] =
      ([sampleSentTx].drop ((2 - 1) * 10)).take 10 ∧
    handlePageChange 2 3 0 = 2) :=
  ⟨by decide,
    claim_C10 sampleFilters 10 0 0 0 0 [sampleSentTx] 2 3 0 [sampleSentTx]
      (by decide) (by decide)⟩

end VoltageDemoWallet
